import Mathlib

/-!
Shallow embedding of the Ticket-Booking-Backend Express/MongoDB servers.

The repository contains several near-duplicate server variants.  The
handlers embedded here are taken from the cited variants:

* `src/unnamed/part_001` (second server in the file): PATCH /users/fraud/:id,
  GET /tickets (with the `isHidden` filter), POST /tickets, POST /bookings,
  PATCH /bookings/accepted/:id, PATCH /bookings/rejected/:id,
  PATCH /bookings/pay/:id, PATCH /admin/tickets/:id,
  PATCH /admin/tickets/advertise/:id.
* `src/unnamed/part_001` (first server in the file): PATCH /tickets/advertise/:id
  (the capacity-checked advertise route) and PATCH /tickets/vendor/:id.
* `src/index.js`: GET /tickets (no `isHidden` filter).

MongoDB documents are modelled as Lean structures; `_id` values are `Nat`.
JavaScript numbers used for prices/quantities are modelled as `Int`
(the source performs no non-negativity checks, and `$inc` can drive a
quantity below zero).  Each handler is a function from the database state
(plus request data) to the post-state paired with the HTTP response; an
early `return res.status(..)` in the source corresponds to returning the
unchanged state with an error response.  The JWT middleware (verifyJWT /
verifyVendor / verifyAdmin) runs before each handler and only yields the
caller identity; it is not part of the handler bodies embedded below, and
the caller identity is passed as an explicit argument where the handler
body uses `req.user`.
-/

namespace TicketBooking

/-- A document of the `users` collection (fields as inserted by POST /users). -/
structure User where
  uid : Nat
  name : String
  email : String
  role : String
  isFraud : Bool
  deriving Repr, DecidableEq

/-- A document of the `tickets` collection (fields as inserted by POST /tickets
in `src/unnamed/part_001`; `origin`/`dest` model the JS fields `from`/`to`,
and `departureDateTime` is a timestamp). -/
structure Ticket where
  tid : Nat
  title : String
  image : String
  origin : String
  dest : String
  departureDateTime : Int
  price : Int
  quantity : Int
  vendorEmail : String
  verificationStatus : String
  isAdvertised : Bool
  isHidden : Bool
  deriving Repr, DecidableEq

/-- A document of the `bookings` collection as inserted by POST /bookings. -/
structure Booking where
  bid : Nat
  ticketId : Nat
  ticketTitle : String
  ticketImage : String
  origin : String
  dest : String
  departureDateTime : Int
  quantity : Int
  totalPrice : Int
  userName : String
  userEmail : String
  vendorEmail : String
  status : String
  deriving Repr, DecidableEq

/-- The three collections of the `ticket_booking_platform` database. -/
structure DB where
  users : List User
  tickets : List Ticket
  bookings : List Booking
  deriving Repr, DecidableEq

/-- An HTTP response: success json, or `res.status(code).json({message})`. -/
inductive Resp where
  | ok (msg : String)
  | err (status : Nat) (msg : String)
  deriving Repr, DecidableEq

/-- Mongo `updateOne`: rewrite the first element matching the predicate. -/
def updateFirst {α : Type} (p : α → Bool) (f : α → α) : List α → List α
  | [] => []
  | x :: xs => if p x then f x :: xs else x :: updateFirst p f xs

/-- `ticketsCollection.findOne({_id})`. -/
def findTicket (db : DB) (id : Nat) : Option Ticket :=
  db.tickets.find? (fun t => t.tid == id)

/-- `bookingsCollection.findOne({_id})`. -/
def findBooking (db : DB) (id : Nat) : Option Booking :=
  db.bookings.find? (fun b => b.bid == id)

/-- `usersCollection.findOne({_id})`. -/
def findUserId (db : DB) (id : Nat) : Option User :=
  db.users.find? (fun u => u.uid == id)

/-- `usersCollection.findOne({email})`. -/
def findUserEmail (db : DB) (email : String) : Option User :=
  db.users.find? (fun u => u.email == email)

/-- PATCH /users/fraud/:id (src/unnamed/part_001 lines 342-361): looks up the
user; if the user is absent or not a VENDOR it answers 400 "Invalid vendor";
otherwise it sets `isFraud` on the user and `isHidden : true` on every ticket
whose `vendorEmail` equals the user's email (`updateMany`). -/
def patchUsersFraud (db : DB) (id : Nat) : DB × Resp :=
  match findUserId db id with
  | none => (db, .err 400 "Invalid vendor")
  | some u =>
    if u.role != "VENDOR" then (db, .err 400 "Invalid vendor")
    else
      let db1 : DB :=
        { db with users := (updateFirst (fun v => v.uid == id)
            (fun v => { v with isFraud := true }) db.users) }
      let db2 : DB :=
        { db1 with tickets := (db1.tickets.map
            (fun t => if t.vendorEmail == u.email then { t with isHidden := true } else t)) }
      (db2, .ok "Vendor marked as fraud")

/-- GET /tickets (src/unnamed/part_001 lines 114-120 and 418-430): query
`{verificationStatus: "approved", isHidden: {$ne: true}}`, plus
`isAdvertised: true` when the `advertised=true` query parameter is given. -/
def getTickets (db : DB) (advertised : Bool) : List Ticket :=
  db.tickets.filter (fun t =>
    t.verificationStatus == "approved" && !t.isHidden && (!advertised || t.isAdvertised))

/-- GET /tickets (src/index.js lines 101-106): query
`{verificationStatus: "approved"}` only — no `isHidden` condition — plus the
advertised flag when requested (the flag field is named `advertise` there;
it is modelled by the same `isAdvertised` field). -/
def getTicketsIndex (db : DB) (advertised : Bool) : List Ticket :=
  db.tickets.filter (fun t =>
    t.verificationStatus == "approved" && (!advertised || t.isAdvertised))

/-- POST /tickets (src/unnamed/part_001 lines 381-415, vendor route): rejects
when `title`, `price` or `quantity` is JS-falsy (empty string / zero), else
inserts a ticket with `verificationStatus: "pending"`, `isHidden: false`,
`isAdvertised: false`.  The generated `_id` is modelled as the list length. -/
def postTickets (db : DB) (callerEmail : String) (title image : String)
    (price : Int) (origin dest : String) (departureDateTime quantity : Int) :
    DB × Resp :=
  if title == "" || price == 0 || quantity == 0 then
    (db, .err 400 "Missing required fields")
  else
    let t : Ticket :=
      { tid := db.tickets.length, title := title, image := image,
        origin := origin, dest := dest, departureDateTime := departureDateTime,
        price := price, quantity := quantity, vendorEmail := callerEmail,
        verificationStatus := "pending", isAdvertised := false, isHidden := false }
    ({ db with tickets := db.tickets ++ [t] }, .ok "Ticket added")

/-- PATCH /admin/tickets/:id (src/unnamed/part_001 lines 587-609): validates
the status value, looks the ticket up, and sets `verificationStatus`. -/
def patchAdminTickets (db : DB) (id : Nat) (status : String) : DB × Resp :=
  if !(status == "approved" || status == "rejected" || status == "hidden") then
    (db, .err 400 "Invalid status")
  else
    match findTicket db id with
    | none => (db, .err 404 "Ticket not found")
    | some _ =>
      ({ db with tickets := (updateFirst (fun t => t.tid == id)
          (fun t => { t with verificationStatus := status }) db.tickets) },
       .ok "Ticket status updated")

/-- `user?.name || "Unknown"` after `usersCollection.findOne({email})` in
POST /bookings: the user's name, or "Unknown" if the user is missing or the
name is falsy. -/
def lookupUserName (db : DB) (email : String) : String :=
  match findUserEmail db email with
  | some u => if u.name == "" then "Unknown" else u.name
  | none => "Unknown"

/-- The booking document built by POST /bookings (src/unnamed/part_001
lines 476-490): a snapshot of the ticket's title, image, route and departure,
plus the caller and the ticket's vendor, with `status: "pending"`. -/
def mkBooking (bid : Nat) (t : Ticket) (q total : Int) (uname uemail : String) :
    Booking :=
  { bid := bid, ticketId := t.tid, ticketTitle := t.title,
    ticketImage := t.image, origin := t.origin, dest := t.dest,
    departureDateTime := t.departureDateTime, quantity := q,
    totalPrice := total, userName := uname, userEmail := uemail,
    vendorEmail := t.vendorEmail, status := "pending" }

/-- The read phase of POST /bookings: `ticketsCollection.findOne({_id: ticketId})`.
The event loop may suspend between this read and the writes below (§ the
handler awaits each persistence call separately). -/
def bookingObserve (db : DB) (ticketId : Nat) : Option Ticket :=
  findTicket db ticketId

/-- The write phase of POST /bookings (src/unnamed/part_001 lines 473-498),
performed after the availability check against the observed ticket `t`:
`insertOne` of the booking document, then a separate
`updateOne({_id: ticket._id}, {$inc: {quantity: -quantity}})` on the live
state.  The `$inc` is unconditional — no floor at zero. -/
def bookingCommit (db : DB) (t : Ticket) (q total : Int) (uemail : String) :
    DB × Resp :=
  let b : Booking := mkBooking db.bookings.length t q total (lookupUserName db uemail) uemail
  let db1 : DB := { db with bookings := db.bookings ++ [b] }
  let db2 : DB :=
    { db1 with tickets := (updateFirst (fun x => x.tid == t.tid)
        (fun x => { x with quantity := x.quantity - q }) db1.tickets) }
  (db2, .ok "Booking created")

/-- POST /bookings (src/unnamed/part_001 lines 458-501) run sequentially:
404 if the ticket is absent; 400 "Not enough tickets available" when
`quantity > ticket.quantity`; otherwise insert the booking and decrement
the ticket's quantity. -/
def postBookings (db : DB) (callerEmail : String) (ticketId : Nat)
    (quantity totalPrice : Int) : DB × Resp :=
  match bookingObserve db ticketId with
  | none => (db, .err 404 "Ticket not found")
  | some t =>
    if t.quantity < quantity then (db, .err 400 "Not enough tickets available")
    else bookingCommit db t quantity totalPrice callerEmail

/-- PATCH /bookings/accepted/:id (src/unnamed/part_001 lines 504-510):
a bare `updateOne({_id}, {$set: {status: "accepted"}})` — no existence,
ownership or current-status check; always answers success. -/
def patchBookingAccepted (db : DB) (id : Nat) : DB × Resp :=
  ({ db with bookings := (updateFirst (fun b => b.bid == id)
      (fun b => { b with status := "accepted" }) db.bookings) },
   .ok "Booking accepted")

/-- PATCH /bookings/rejected/:id (src/unnamed/part_001 lines 512-518):
same shape as the accept route, setting `status: "rejected"`. -/
def patchBookingRejected (db : DB) (id : Nat) : DB × Resp :=
  ({ db with bookings := (updateFirst (fun b => b.bid == id)
      (fun b => { b with status := "rejected" }) db.bookings) },
   .ok "Booking rejected")

/-- PATCH /bookings/pay/:id (src/unnamed/part_001 lines 562-574): looks the
booking up (404 if absent); 400 "Departure passed" when the booked departure
is before `now`; otherwise sets the booking's status to "paid" AND runs
`updateOne({_id: booking.ticketId}, {$inc: {quantity: -booking.quantity}})`
on the tickets collection — a second, unguarded inventory decrement.  The
handler never reads `req.user`, so the caller identity `_caller` is unused:
there is no ownership check. -/
def patchBookingsPay (db : DB) ( _caller : String) (now : Int) (id : Nat) :
    DB × Resp :=
  match findBooking db id with
  | none => (db, .err 404 "Booking not found")
  | some b =>
    if b.departureDateTime < now then (db, .err 400 "Departure passed")
    else
      let db1 : DB :=
        { db with bookings := (updateFirst (fun x => x.bid == id)
            (fun x => { x with status := "paid" }) db.bookings) }
      let db2 : DB :=
        { db1 with tickets := (updateFirst (fun t => t.tid == b.ticketId)
            (fun t => { t with quantity := t.quantity - b.quantity }) db1.tickets) }
      (db2, .ok "Payment successful")

/-- Number of tickets with `isAdvertised: true`
(`ticketsCollection.countDocuments({isAdvertised: true})`). -/
def countAdvertised (db : DB) : Nat :=
  (db.tickets.filter (fun t => t.isAdvertised)).length

/-- PATCH /tickets/advertise/:id (src/unnamed/part_001 lines 183-194, the
capacity-checked admin route): when promoting (`isAdvertised = true`) it
counts the currently advertised tickets and answers 400 when the count is
already ≥ 6; otherwise (and always when demoting) it sets the flag via
`updateOne` with no further check. -/
def patchTicketsAdvertise (db : DB) (id : Nat) (isAdvertised : Bool) : DB × Resp :=
  if isAdvertised = true ∧ 6 ≤ countAdvertised db then
    (db, .err 400 "Maximum 6 advertised tickets allowed")
  else
    ({ db with tickets := (updateFirst (fun t => t.tid == id)
        (fun t => { t with isAdvertised := isAdvertised }) db.tickets) },
     .ok "Advertisement status updated")

/-- PATCH /admin/tickets/advertise/:id (src/unnamed/part_001 lines 611-627):
looks the ticket up (404 if absent) and toggles `isAdvertised` to the
negation of its current value — with NO capacity check at all. -/
def patchAdminTicketsAdvertise (db : DB) (id : Nat) : DB × Resp :=
  match findTicket db id with
  | none => (db, .err 404 "Ticket not found")
  | some t =>
    ({ db with tickets := (updateFirst (fun x => x.tid == id)
        (fun x => { x with isAdvertised := !t.isAdvertised }) db.tickets) },
     .ok "Advertisement toggled")

/-- A PATCH request body for a ticket, applied verbatim by
`updateOne({_id}, {$set: req.body})`: every field the caller chooses to send
overwrites the stored field.  Only the modelled fields are listed; `none`
means the caller did not send that field. -/
structure TicketSet where
  title : Option String := none
  price : Option Int := none
  quantity : Option Int := none
  verificationStatus : Option String := none
  isAdvertised : Option Bool := none
  isHidden : Option Bool := none
  deriving Repr, DecidableEq

/-- `$set: req.body` on a ticket document. -/
def applySet (t : Ticket) (u : TicketSet) : Ticket :=
  { t with
    title := u.title.getD t.title,
    price := u.price.getD t.price,
    quantity := u.quantity.getD t.quantity,
    verificationStatus := u.verificationStatus.getD t.verificationStatus,
    isAdvertised := u.isAdvertised.getD t.isAdvertised,
    isHidden := u.isHidden.getD t.isHidden }

/-- PATCH /tickets/vendor/:id (src/unnamed/part_001 lines 152-158): 403 when
the ticket is absent or not owned by the calling vendor; otherwise
`updateOne({_id}, {$set: req.body})` — the whole request body, including an
`isHidden` field if the caller sends one, is written to the stored ticket. -/
def patchTicketsVendor (db : DB) (callerEmail : String) (id : Nat)
    (body : TicketSet) : DB × Resp :=
  match findTicket db id with
  | none => (db, .err 403 "Forbidden")
  | some t =>
    if t.vendorEmail != callerEmail then (db, .err 403 "Forbidden")
    else
      ({ db with tickets := (updateFirst (fun x => x.tid == id)
          (fun x => applySet x body) db.tickets) },
       .ok "Ticket updated")


/-! ## Concrete fixtures -/

/-- A vendor account. -/
def vera : User :=
  { uid := 0, name := "Vera", email := "vera@v.com", role := "VENDOR", isFraud := false }

/-- A regular user account. -/
def alice : User :=
  { uid := 1, name := "Alice", email := "alice@a.com", role := "USER", isFraud := false }

/-- An approved ticket with 5 remaining units, departing at time 100. -/
def ticket5 : Ticket :=
  { tid := 0, title := "Dhaka to Sylhet", image := "bus.png", origin := "Dhaka",
    dest := "Sylhet", departureDateTime := 100, price := 10, quantity := 5,
    vendorEmail := "vera@v.com", verificationStatus := "approved",
    isAdvertised := false, isHidden := false }

/-- A database holding the two accounts and `ticket5`. -/
def db5 : DB := { users := [vera, alice], tickets := [ticket5], bookings := [] }

/-! ## C1 -/

/-- C1: for every createBooking call, if no ticket with the given id exists the
handler fails with 404 (NotFound) and changes nothing; if the requested
quantity exceeds the ticket's remaining quantity it fails with 400
(InsufficientInventory) and changes nothing; otherwise it appends a booking
with status "pending" snapshotting the ticket's title/image/route/departure
and vendor email, and decrements that ticket's quantity by exactly the
requested quantity — both the insertion and the decrement applied, and on the
failure paths neither. -/
theorem createBooking_spec (db : DB) (caller : String) (ticketId : Nat)
    (q total : Int) :
    (findTicket db ticketId = none →
      postBookings db caller ticketId q total = (db, .err 404 "Ticket not found")) ∧
    (∀ t, findTicket db ticketId = some t →
      (t.quantity < q →
        postBookings db caller ticketId q total =
          (db, .err 400 "Not enough tickets available")) ∧
      (q ≤ t.quantity →
        postBookings db caller ticketId q total =
          ({ db with
              bookings := db.bookings ++
                [mkBooking db.bookings.length t q total (lookupUserName db caller) caller],
              tickets := (updateFirst (fun x => x.tid == t.tid)
                (fun x => { x with quantity := x.quantity - q }) db.tickets) },
           .ok "Booking created"))) := by
  constructor
  · intro h
    simp [postBookings, bookingObserve, h]
  · intro t ht
    constructor
    · intro hlt
      simp [postBookings, bookingObserve, ht, hlt]
    · intro hle
      simp [postBookings, bookingObserve, ht, not_lt.mpr hle, bookingCommit]

/-- Witness for C1: all three branches of `createBooking_spec` exercised on
concrete inputs (absent ticket id 7; oversized request of 9 > 5; successful
request of 3 ≤ 5). -/
theorem createBooking_spec_witness :
    (postBookings db5 "alice@a.com" 7 1 10 = (db5, .err 404 "Ticket not found")) ∧
    (postBookings db5 "alice@a.com" 0 9 90 =
      (db5, .err 400 "Not enough tickets available")) ∧
    (postBookings db5 "alice@a.com" 0 3 30 =
      ({ db5 with
          bookings := db5.bookings ++
            [mkBooking db5.bookings.length ticket5 3 30
              (lookupUserName db5 "alice@a.com") "alice@a.com"],
          tickets := (updateFirst (fun x => x.tid == ticket5.tid)
            (fun x => { x with quantity := x.quantity - 3 }) db5.tickets) },
       .ok "Booking created")) :=
  ⟨(createBooking_spec db5 "alice@a.com" 7 1 10).1 rfl,
   ((createBooking_spec db5 "alice@a.com" 0 9 90).2 ticket5 rfl).1 (by decide),
   ((createBooking_spec db5 "alice@a.com" 0 3 30).2 ticket5 rfl).2 (by decide)⟩

/-! ## C2 -/

/-- The empty starting database with the two accounts. -/
def dbInit : DB := { users := [vera, alice], tickets := [], bookings := [] }

/-- Vendor creates a ticket with quantity 2 (POST /tickets). -/
def dbAfterCreate : DB :=
  (postTickets dbInit "vera@v.com" "Dhaka to Sylhet" "bus.png" 10 "Dhaka" "Sylhet" 100 2).1

/-- Admin approves the ticket (PATCH /admin/tickets/0). -/
def dbAfterApprove : DB := (patchAdminTickets dbAfterCreate 0 "approved").1

/-- Alice books both units (POST /bookings), leaving quantity 0. -/
def dbAfterBooking : DB := (postBookings dbAfterApprove "alice@a.com" 0 2 20).1

/-- Alice pays the booking before departure (PATCH /bookings/pay/0). -/
def dbAfterPay : DB := (patchBookingsPay dbAfterBooking "alice@a.com" 50 0).1

/-- C2 fails on the code: a reachable sequence of operations — create a
ticket with quantity 2, approve it, book both units (success, quantity 0),
then pay the booking before departure (success) — leaves the ticket's
remaining quantity at -2, below zero, because the pay handler performs an
unguarded second `$inc: {quantity: -booking.quantity}`. -/
theorem quantity_goes_negative :
    (postBookings dbAfterApprove "alice@a.com" 0 2 20).2 = .ok "Booking created" ∧
    (patchBookingsPay dbAfterBooking "alice@a.com" 50 0).2 = .ok "Payment successful" ∧
    (findTicket dbAfterPay 0).map Ticket.quantity = some (-2) := by
  refine ⟨by decide, by decide, by decide⟩

/-! ## C3 -/

/-- `ticket5` sold out: 0 units remaining. -/
def ticketSoldOut : Ticket := { ticket5 with quantity := 0 }

/-- A pending booking of 2 units of ticket 0 owned by Alice. -/
def bookingPending : Booking :=
  { bid := 0, ticketId := 0, ticketTitle := "Dhaka to Sylhet",
    ticketImage := "bus.png", origin := "Dhaka", dest := "Sylhet",
    departureDateTime := 100, quantity := 2, totalPrice := 20,
    userName := "Alice", userEmail := "alice@a.com",
    vendorEmail := "vera@v.com", status := "pending" }

/-- Database at settlement time: the ticket at quantity 0 and the booking pending. -/
def dbSettle : DB :=
  { users := [vera, alice], tickets := [ticketSoldOut], bookings := [bookingPending] }

/-- C3 fails on the code: settling the payment of a pending 2-unit booking
does not leave the referenced ticket's quantity unchanged — the pay handler
decrements it again from 0 to -2, so inventory is counted twice per paid
booking instead of exactly once at creation. -/
theorem settlePayment_decrements_again :
    (patchBookingsPay dbSettle "alice@a.com" 50 0).2 = .ok "Payment successful" ∧
    (findTicket dbSettle 0).map Ticket.quantity = some 0 ∧
    (findTicket (patchBookingsPay dbSettle "alice@a.com" 50 0).1 0).map Ticket.quantity
      = some (-2) ∧
    (findBooking (patchBookingsPay dbSettle "alice@a.com" 50 0).1 0).map Booking.status
      = some "paid" := by
  refine ⟨by decide, by decide, by decide, by decide⟩

/-! ## C4 -/

/-- C4 fails on the code: POST /bookings is a `findOne` read followed by
separate `insertOne`/`updateOne` writes, so under the event-loop interleaving
read1, read2, write1, write2 two concurrent requests for 3 units of the
5-unit `ticket5` BOTH pass the availability check against the same snapshot
and both commit: two success responses, two bookings inserted, and the
ticket's quantity driven to -1 — not the claimed one-success-one-failure. -/
theorem concurrent_bookings_both_succeed :
    bookingObserve db5 0 = some ticket5 ∧
    ¬ ticket5.quantity < 3 ∧
    (bookingCommit db5 ticket5 3 30 "alice@a.com").2 = .ok "Booking created" ∧
    (bookingCommit (bookingCommit db5 ticket5 3 30 "alice@a.com").1
      ticket5 3 30 "bob@b.com").2 = .ok "Booking created" ∧
    ((bookingCommit (bookingCommit db5 ticket5 3 30 "alice@a.com").1
      ticket5 3 30 "bob@b.com").1.bookings.length = 2) ∧
    (findTicket (bookingCommit (bookingCommit db5 ticket5 3 30 "alice@a.com").1
      ticket5 3 30 "bob@b.com").1 0).map Ticket.quantity = some (-1) := by
  refine ⟨by decide, by decide, by decide, by decide, by decide, by decide⟩

/-! ## C5 -/

/-- If `find? p` returns `b` and `f` preserves `p`, then after `updateFirst p f`
the same lookup returns `f b`. -/
theorem find?_updateFirst {α : Type} (p : α → Bool) (f : α → α) (l : List α)
    (b : α) (hf : ∀ a, p a = true → p (f a) = true) (h : l.find? p = some b) :
    (updateFirst p f l).find? p = some (f b) := by
  induction l with
  | nil => simp at h
  | cons x xs ih =>
    by_cases hx : p x = true
    · rw [List.find?_cons_of_pos _ hx] at h
      injection h with h
      subst h
      simp [updateFirst, hx, List.find?_cons_of_pos _ (hf x hx)]
    · have hx' : p x = false := by simpa using hx
      rw [List.find?_cons_of_neg _ hx] at h
      simp only [updateFirst, hx', Bool.false_eq_true, if_false]
      rw [List.find?_cons_of_neg _ hx]
      exact ih h

/-- The booking of `dbSettle`, already accepted. -/
def bookingAccepted : Booking := { bookingPending with status := "accepted" }

/-- A database whose only booking is in the terminal state "accepted". -/
def dbAccepted : DB :=
  { users := [vera, alice], tickets := [ticket5], bookings := [bookingAccepted] }

/-- C5 counterexample: booking 0 of `dbAccepted` is in the terminal state
"accepted", yet PATCH /bookings/rejected/0 answers success and rewrites the
status to "rejected" — no InvalidTransition error, and the status does not
stay unchanged. -/
theorem decide_from_terminal_succeeds :
    (findBooking dbAccepted 0).map Booking.status = some "accepted" ∧
    (patchBookingRejected dbAccepted 0).2 = .ok "Booking rejected" ∧
    (findBooking (patchBookingRejected dbAccepted 0).1 0).map Booking.status
      = some "rejected" := by
  refine ⟨by decide, by decide, by decide⟩

/-- C5 amended: the accept/reject/pay handlers perform no current-status
check at all: whatever the booking's status — pending, accepted, rejected or
paid — the accept route succeeds and sets it to "accepted", the reject route
succeeds and sets it to "rejected", and the pay route (when the departure has
not passed) succeeds and sets it to "paid"; no transition ever fails with
InvalidTransition. -/
theorem decide_no_status_check (db : DB) (id : Nat) (b : Booking)
    (h : findBooking db id = some b) :
    ((patchBookingAccepted db id).2 = .ok "Booking accepted" ∧
      findBooking (patchBookingAccepted db id).1 id
        = some { b with status := "accepted" }) ∧
    ((patchBookingRejected db id).2 = .ok "Booking rejected" ∧
      findBooking (patchBookingRejected db id).1 id
        = some { b with status := "rejected" }) ∧
    (∀ caller now, ¬ b.departureDateTime < now →
      (patchBookingsPay db caller now id).2 = .ok "Payment successful" ∧
      findBooking (patchBookingsPay db caller now id).1 id
        = some { b with status := "paid" }) := by
  refine ⟨⟨rfl, ?_⟩, ⟨rfl, ?_⟩, ?_⟩
  · exact find?_updateFirst _ _ _ _ (fun a ha => ha) h
  · exact find?_updateFirst _ _ _ _ (fun a ha => ha) h
  · intro caller now hnow
    constructor
    · simp [patchBookingsPay, h, hnow]
    · simp only [patchBookingsPay, h, if_neg hnow]
      exact find?_updateFirst _ _ _ _ (fun a ha => ha) h

/-- Witness for C5 (amended): all three transitions applied to the
terminal-state booking of `dbAccepted`. -/
theorem decide_no_status_check_witness :
    ((patchBookingAccepted dbAccepted 0).2 = .ok "Booking accepted" ∧
      findBooking (patchBookingAccepted dbAccepted 0).1 0
        = some { bookingAccepted with status := "accepted" }) ∧
    ((patchBookingRejected dbAccepted 0).2 = .ok "Booking rejected" ∧
      findBooking (patchBookingRejected dbAccepted 0).1 0
        = some { bookingAccepted with status := "rejected" }) ∧
    ((patchBookingsPay dbAccepted "alice@a.com" 50 0).2 = .ok "Payment successful" ∧
      findBooking (patchBookingsPay dbAccepted "alice@a.com" 50 0).1 0
        = some { bookingAccepted with status := "paid" }) :=
  ⟨(decide_no_status_check dbAccepted 0 bookingAccepted rfl).1,
   (decide_no_status_check dbAccepted 0 bookingAccepted rfl).2.1,
   (decide_no_status_check dbAccepted 0 bookingAccepted rfl).2.2
     "alice@a.com" 50 (by decide)⟩

/-! ## C6 -/

/-- C6 counterexample: booking 0 of `dbSettle` is owned by alice@a.com, yet a
pay request authenticated as mallory@m.com — not the owner — succeeds and
marks the booking paid: the handler never reads the caller identity, so the
claimed Forbidden failure does not exist. -/
theorem pay_without_ownership_succeeds :
    (findBooking dbSettle 0).map Booking.userEmail = some "alice@a.com" ∧
    (patchBookingsPay dbSettle "mallory@m.com" 50 0).2 = .ok "Payment successful" ∧
    (findBooking (patchBookingsPay dbSettle "mallory@m.com" 50 0).1 0).map Booking.status
      = some "paid" := by
  refine ⟨by decide, by decide, by decide⟩

/-- C6 amended: settlePayment fails with 404 (NotFound) if no booking with
the given id exists; fails with 400 "Departure passed" (DeparturePassed) if
the booked departure date-time is earlier than the current time; otherwise —
for ANY caller, with no ownership check — it sets the booking's status to
"paid" (and additionally decrements the booked ticket's quantity). -/
theorem settlePayment_spec (db : DB) (caller : String) (now : Int) (id : Nat) :
    (findBooking db id = none →
      patchBookingsPay db caller now id = (db, .err 404 "Booking not found")) ∧
    (∀ b, findBooking db id = some b →
      (b.departureDateTime < now →
        patchBookingsPay db caller now id = (db, .err 400 "Departure passed")) ∧
      (¬ b.departureDateTime < now →
        patchBookingsPay db caller now id =
          ({ db with
              bookings := (updateFirst (fun x => x.bid == id)
                (fun x => { x with status := "paid" }) db.bookings),
              tickets := (updateFirst (fun t => t.tid == b.ticketId)
                (fun t => { t with quantity := t.quantity - b.quantity }) db.tickets) },
           .ok "Payment successful"))) := by
  constructor
  · intro h
    simp [patchBookingsPay, h]
  · intro b hb
    constructor
    · intro hlt
      simp [patchBookingsPay, hb, hlt]
    · intro hge
      simp [patchBookingsPay, hb, hge]

/-- Witness for C6 (amended): the three branches at concrete inputs on
`dbSettle` (absent booking id 9; departure 100 already passed at now = 200;
success at now = 50). -/
theorem settlePayment_spec_witness :
    (patchBookingsPay dbSettle "alice@a.com" 50 9
      = (dbSettle, .err 404 "Booking not found")) ∧
    (patchBookingsPay dbSettle "alice@a.com" 200 0
      = (dbSettle, .err 400 "Departure passed")) ∧
    (patchBookingsPay dbSettle "alice@a.com" 50 0 =
      ({ dbSettle with
          bookings := (updateFirst (fun x => x.bid == 0)
            (fun x => { x with status := "paid" }) dbSettle.bookings),
          tickets := (updateFirst (fun t => t.tid == bookingPending.ticketId)
            (fun t => { t with quantity := t.quantity - bookingPending.quantity })
            dbSettle.tickets) },
       .ok "Payment successful")) :=
  ⟨(settlePayment_spec dbSettle "alice@a.com" 50 9).1 rfl,
   ((settlePayment_spec dbSettle "alice@a.com" 200 0).2 bookingPending rfl).1 (by decide),
   ((settlePayment_spec dbSettle "alice@a.com" 50 0).2 bookingPending rfl).2 (by decide)⟩

/-! ## C7 -/

/-- A second ticket of vera's, still pending verification. -/
def ticketPendingV : Ticket := { ticket5 with tid := 1, verificationStatus := "pending" }

/-- Another vendor account. -/
def bobVendor : User :=
  { uid := 2, name := "Bob", email := "bob@b.com", role := "VENDOR", isFraud := false }

/-- An approved ticket owned by bob@b.com. -/
def ticketBob : Ticket := { ticket5 with tid := 2, vendorEmail := "bob@b.com" }

/-- Database for the fraud-cascade scenario: vera owns tickets 0 (approved)
and 1 (pending), bob owns ticket 2 (approved). -/
def dbFraud : DB :=
  { users := [vera, alice, bobVendor],
    tickets := [ticket5, ticketPendingV, ticketBob], bookings := [] }

/-- C7 counterexample: with no user of id 9 in `db5`, the fraud route answers
400 "Invalid vendor" — the very same response it gives for the existing
non-VENDOR target alice (id 1) — and not a 404 NotFound, so an absent user
does NOT fail with NotFound as the claim requires. -/
theorem fraud_missing_user_same_error :
    findUserId db5 9 = none ∧
    (patchUsersFraud db5 9).2 = .err 400 "Invalid vendor" ∧
    (patchUsersFraud db5 9).2 ≠ .err 404 "User not found" ∧
    alice.role = "USER" ∧
    (patchUsersFraud db5 1).2 = .err 400 "Invalid vendor" := by
  refine ⟨by decide, by decide, by decide, by decide, by decide⟩

/-- C7 amended: the fraud route fails with the single error 400
"Invalid vendor" (an InvalidTarget-style response, not a distinct NotFound)
both when the user does not exist and when the user's role is not VENDOR;
otherwise it sets isFraud = true on that user and isHidden = true on every
ticket whose vendorEmail equals the vendor's email, regardless of each
ticket's verificationStatus, after which the public listing returns none of
that vendor's tickets. -/
theorem markVendorFraud_spec (db : DB) (id : Nat) :
    (findUserId db id = none →
      patchUsersFraud db id = (db, .err 400 "Invalid vendor")) ∧
    (∀ u, findUserId db id = some u →
      (u.role ≠ "VENDOR" →
        patchUsersFraud db id = (db, .err 400 "Invalid vendor")) ∧
      (u.role = "VENDOR" →
        (patchUsersFraud db id).2 = .ok "Vendor marked as fraud" ∧
        findUserId (patchUsersFraud db id).1 id = some { u with isFraud := true } ∧
        (∀ t, t ∈ (patchUsersFraud db id).1.tickets →
          t.vendorEmail = u.email → t.isHidden = true) ∧
        (∀ advertised t, t ∈ getTickets (patchUsersFraud db id).1 advertised →
          t.vendorEmail ≠ u.email))) := by
  constructor
  · intro h
    simp [patchUsersFraud, h]
  · intro u hu
    constructor
    · intro hrole
      simp [patchUsersFraud, hu, hrole]
    · intro hrole
      have hne : (u.role != "VENDOR") = false := by simp [hrole]
      have hstate :
          (patchUsersFraud db id).1.tickets = db.tickets.map
            (fun t => if t.vendorEmail == u.email then { t with isHidden := true } else t) := by
        simp [patchUsersFraud, hu, hne]
      refine ⟨by simp [patchUsersFraud, hu, hne], ?_, ?_, ?_⟩
      · have husers :
            (patchUsersFraud db id).1.users = (updateFirst (fun v => v.uid == id)
              (fun v => { v with isFraud := true }) db.users) := by
          simp [patchUsersFraud, hu, hne]
        show ((patchUsersFraud db id).1.users).find? (fun v => v.uid == id)
          = some { u with isFraud := true }
        rw [husers]
        exact find?_updateFirst _ _ _ _ (fun a ha => ha) hu
      · intro t ht hvend
        rw [hstate] at ht
        obtain ⟨t0, _, rfl⟩ := List.mem_map.mp ht
        by_cases h0 : (t0.vendorEmail == u.email) = true
        · simp [h0]
        · rw [if_neg h0] at hvend
          exact absurd hvend (by simpa using h0)
      · intro advertised t ht hvend
        simp only [getTickets, List.mem_filter, Bool.and_eq_true] at ht
        obtain ⟨hmem, hcond⟩ := ht
        have hhid : t.isHidden = false := by simpa using hcond.1.2
        rw [hstate] at hmem
        obtain ⟨t0, _, rfl⟩ := List.mem_map.mp hmem
        by_cases h0 : (t0.vendorEmail == u.email) = true
        · rw [if_pos h0] at hhid
          simp at hhid
        · rw [if_neg h0] at hvend
          exact absurd hvend (by simpa using h0)

/-- Witness for C7 (amended): the three branches at concrete inputs
(absent user 9; non-vendor alice; vendor vera), plus the flagged user
document after the cascade. -/
theorem markVendorFraud_spec_witness :
    patchUsersFraud dbFraud 9 = (dbFraud, .err 400 "Invalid vendor") ∧
    patchUsersFraud dbFraud 1 = (dbFraud, .err 400 "Invalid vendor") ∧
    (patchUsersFraud dbFraud 0).2 = .ok "Vendor marked as fraud" ∧
    findUserId (patchUsersFraud dbFraud 0).1 0 = some { vera with isFraud := true } :=
  ⟨(markVendorFraud_spec dbFraud 9).1 rfl,
   ((markVendorFraud_spec dbFraud 1).2 alice rfl).1 (by decide),
   (((markVendorFraud_spec dbFraud 0).2 vera rfl).2 rfl).1,
   (((markVendorFraud_spec dbFraud 0).2 vera rfl).2 rfl).2.1⟩

/-! ## C8 -/

/-- One POST /tickets call by vera (title "T", price 10, quantity 3). -/
def addTicket (db : DB) : DB :=
  (postTickets db "vera@v.com" "T" "i" 10 "A" "B" 100 3).1

/-- One capacity-checked promotion (PATCH /tickets/advertise/:id, true). -/
def promote (db : DB) (id : Nat) : DB := (patchTicketsAdvertise db id true).1

/-- Seven tickets created through POST /tickets, none advertised yet. -/
def dbSevenTickets : DB :=
  addTicket (addTicket (addTicket (addTicket (addTicket (addTicket
    (addTicket { users := [vera], tickets := [], bookings := [] }))))))

/-- Tickets 0–5 promoted through the capacity-checked route (each promotion
sees a count below 6 and passes). -/
def dbSixAdvertised : DB :=
  promote (promote (promote (promote (promote (promote dbSevenTickets 0) 1) 2) 3) 4) 5

/-- C8 counterexample: `dbSixAdvertised` is reached from an empty catalog by
seven POST /tickets calls and six capacity-checked promotions, so it is
reachable and holds exactly 6 advertised tickets; yet the admin toggle route
PATCH /admin/tickets/advertise/6 succeeds — it performs no capacity check —
and the resulting reachable state has 7 advertised tickets, breaking the
claimed ≤ 6 invariant. -/
theorem seventh_advertisement_reachable :
    countAdvertised dbSixAdvertised = 6 ∧
    (patchAdminTicketsAdvertise dbSixAdvertised 6).2 = .ok "Advertisement toggled" ∧
    countAdvertised (patchAdminTicketsAdvertise dbSixAdvertised 6).1 = 7 := by
  refine ⟨by decide, by decide, by decide⟩

/-- C8 amended: only the capacity-checked advertise route enforces the cap —
with the count already ≥ 6 a promotion through it fails with 400
"Maximum 6 advertised tickets allowed" and changes nothing, below the cap it
sets the flag, and clearing the flag is never capacity-checked — while the
admin toggle route performs no capacity check at all (it succeeds on any
existing ticket), so states with more than 6 advertised tickets are
reachable. -/
theorem advertise_cap_spec (db : DB) (id : Nat) :
    (6 ≤ countAdvertised db →
      patchTicketsAdvertise db id true
        = (db, .err 400 "Maximum 6 advertised tickets allowed")) ∧
    (countAdvertised db < 6 →
      patchTicketsAdvertise db id true =
        ({ db with tickets := (updateFirst (fun t => t.tid == id)
            (fun t => { t with isAdvertised := true }) db.tickets) },
         .ok "Advertisement status updated")) ∧
    (patchTicketsAdvertise db id false =
      ({ db with tickets := (updateFirst (fun t => t.tid == id)
          (fun t => { t with isAdvertised := false }) db.tickets) },
       .ok "Advertisement status updated")) ∧
    (∀ t, findTicket db id = some t →
      (patchAdminTicketsAdvertise db id).2 = .ok "Advertisement toggled") := by
  refine ⟨?_, ?_, ?_, ?_⟩
  · intro h
    simp [patchTicketsAdvertise, h]
  · intro h
    simp [patchTicketsAdvertise, Nat.not_le.mpr h]
  · simp [patchTicketsAdvertise]
  · intro t ht
    simp [patchAdminTicketsAdvertise, ht]

/-- Witness for C8 (amended): at `dbSixAdvertised` (count exactly 6) the
checked promotion of ticket 6 fails, clearing ticket 0 succeeds, and the
admin toggle on ticket 6 succeeds; below the cap (`db5`) promotion succeeds. -/
theorem advertise_cap_spec_witness :
    (patchTicketsAdvertise dbSixAdvertised 6 true
      = (dbSixAdvertised, .err 400 "Maximum 6 advertised tickets allowed")) ∧
    (patchTicketsAdvertise db5 0 true =
      ({ db5 with tickets := (updateFirst (fun t => t.tid == 0)
          (fun t => { t with isAdvertised := true }) db5.tickets) },
       .ok "Advertisement status updated")) ∧
    (patchTicketsAdvertise dbSixAdvertised 0 false =
      ({ dbSixAdvertised with tickets := (updateFirst (fun t => t.tid == 0)
          (fun t => { t with isAdvertised := false }) dbSixAdvertised.tickets) },
       .ok "Advertisement status updated")) ∧
    ((patchAdminTicketsAdvertise dbSixAdvertised 6).2 = .ok "Advertisement toggled") :=
  ⟨(advertise_cap_spec dbSixAdvertised 6).1 (by decide),
   (advertise_cap_spec db5 0).2.1 (by decide),
   (advertise_cap_spec dbSixAdvertised 0).2.2.1,
   (advertise_cap_spec dbSixAdvertised 6).2.2.2
     ((findTicket dbSixAdvertised 6).getD ticket5) (by decide)⟩

/-! ## C9 -/

/-- An approved but hidden ticket. -/
def ticketHidden : Ticket := { ticket5 with tid := 3, isHidden := true }

/-- A catalog holding only the approved hidden ticket. -/
def dbHidden : DB := { users := [vera], tickets := [ticketHidden], bookings := [] }

/-- C9 counterexample: `ticketHidden` is approved AND hidden, and the
index.js public listing (which filters only on verificationStatus) returns
it — so listPublic does not return exactly the approved-and-not-hidden
tickets in that variant. -/
theorem index_listing_returns_hidden_ticket :
    ticketHidden.verificationStatus = "approved" ∧
    ticketHidden.isHidden = true ∧
    getTicketsIndex dbHidden false = [ticketHidden] := by
  refine ⟨by decide, by decide, by decide⟩

/-- C9 amended: the part_001 public listing returns exactly the tickets with
verificationStatus "approved" and isHidden false (restricted to advertised
tickets when the advertisedOnly filter is requested); the index.js listing
filters only on verificationStatus "approved" (and the advertised flag), so
approved hidden tickets are still returned there. -/
theorem listPublic_spec (db : DB) (advertised : Bool) (t : Ticket) :
    (t ∈ getTickets db advertised ↔
      t ∈ db.tickets ∧ t.verificationStatus = "approved" ∧ t.isHidden = false ∧
        (advertised = true → t.isAdvertised = true)) ∧
    (t ∈ getTicketsIndex db advertised ↔
      t ∈ db.tickets ∧ t.verificationStatus = "approved" ∧
        (advertised = true → t.isAdvertised = true)) := by
  cases advertised <;>
    simp [getTickets, getTicketsIndex, List.mem_filter, and_assoc]

/-! ## C10 -/

/-- C10 fails on the code: the vendor ticket-update route applies
`$set: req.body` verbatim, so the owning vendor — an ordinary caller-facing
ticket edit, not the fraud cascade — sets isHidden = true on ticket 0 of
`db5` simply by including it in the request payload; update succeeds and the
stored flag flips. -/
theorem vendor_update_sets_isHidden :
    (findTicket db5 0).map Ticket.isHidden = some false ∧
    (patchTicketsVendor db5 "vera@v.com" 0 { isHidden := some true }).2
      = .ok "Ticket updated" ∧
    (findTicket (patchTicketsVendor db5 "vera@v.com" 0 { isHidden := some true }).1 0).map
      Ticket.isHidden = some true := by
  refine ⟨by decide, by decide, by decide⟩


end TicketBooking
